import Mathlib

/-!
Verification development for the safe filesystem mutation core of the
LLM-File-Organizer repository (`src/filesystem_operations.py`,
`src/safety_validator.py`, the action dispatcher of `src/llm_interface.py`).

The embedding models a POSIX, symlink-free filesystem tree.  A path is its
list of components; the sandbox Root is an absolute component list.  The
state of the tree under Root is an association list from Root-relative
paths to entries (files carry an opaque content identifier, a stand-in for
both the byte content and the size reported by `stat`).  The ambient clock
(`time.time()`, used by the conflict-rename fallback) and the compiled
regular-expression matcher of the validator are passed as explicit
parameters.  Error values model Python's returned `{"error": ...}` dicts;
`Except` models an exception that propagates to an enclosing handler.
-/

namespace LLMFileOrg

/-- A filesystem path as its list of components (POSIX, no drive letters). -/
abbrev FsPath := List String

/-- Split a character list at every slash; mirrors POSIX `str.split("/")`. -/
def splitSlash : List Char → List (List Char)
  | [] => [[]]
  | c :: rest =>
    let r := splitSlash rest
    if c = '/' then [] :: r
    else match r with
      | [] => [[c]]
      | h :: t => (c :: h) :: t

/-- Parse a path string the way `pathlib.Path` does on POSIX: the flag is
`is_absolute()` (a leading slash), and the components drop empty pieces
(repeated slashes) and lone dots, keeping `".."` components. -/
def parsePath (s : String) : Bool × List String :=
  let cs := s.toList
  let isAbs := match cs with
    | '/' :: _ => true
    | _ => false
  (isAbs, ((splitSlash cs).map (fun l => String.mk l)).filter
    (fun c => !(decide (c = "" ∨ c = "."))))

/-- Lexical `".."` elimination of `Path.resolve()` on a symlink-free tree:
a `".."` component removes the preceding component, and at the filesystem
root it is absorbed (`/.. = /`). -/
def resolveDots (comps : List String) : List String :=
  comps.foldl (fun acc c => if c = ".." then acc.dropLast else acc ++ [c]) []

/-- The absolute component list `Path(path_str)` / joining in
`_safe_path` lines 25-29: an absolute input is used as is, a relative one
is joined to the root. -/
def joinedInput (root : FsPath) (pathStr : String) : FsPath :=
  let pr := parsePath pathStr
  if pr.1 then pr.2 else root ++ pr.2

/-- `SafeFilesystemOperations._validate_path`: resolve once more and check
`is_relative_to(root)`, which on `pathlib` paths is exactly the
components-prefix test. -/
def validatePath (root : FsPath) (p : FsPath) : Bool :=
  root.isPrefixOf (resolveDots p)

/-- `SafeFilesystemOperations._safe_path`: join, resolve, validate; a
failing validation raises `ValueError("Path outside allowed directory: ...")`,
modelled as the `Except.error` carrying that message. -/
def safePath (root : FsPath) (pathStr : String) : Except String FsPath :=
  if validatePath root (resolveDots (joinedInput root pathStr)) then
    Except.ok (resolveDots (joinedInput root pathStr))
  else
    Except.error ("Path outside allowed directory: " ++ pathStr)

/-- `_safe_path` followed by `relative_to(self.root_path)`: the operations
below store the tree as Root-relative paths, so each operation drops the
root components of the absolute resolved path right away. -/
def safeRel (root : FsPath) (pathStr : String) : Except String FsPath :=
  match safePath root pathStr with
  | Except.ok q => Except.ok (q.drop root.length)
  | Except.error e => Except.error e

/-- A directory entry: a file with an opaque content identifier, or a
directory. -/
inductive Entry
  | file (content : Nat)
  | dir
  deriving DecidableEq

/-- The tree under Root: association list from Root-relative paths to
entries.  Root itself (the empty path) exists implicitly. -/
abbrev FS := List (FsPath × Entry)

/-- First-match association-list lookup. -/
def assocLookup {α β : Type} [DecidableEq α] : List (α × β) → α → Option β
  | [], _ => none
  | (k, v) :: rest, a => if k = a then some v else assocLookup rest a

/-- Lookup of a Root-relative path in the tree. -/
def lookupFS (fs : FS) (p : FsPath) : Option Entry :=
  assocLookup fs p

/-- `Path.exists()` relative to Root; Root itself always exists. -/
def existsRel (fs : FS) (p : FsPath) : Bool :=
  p.isEmpty || (lookupFS fs p).isSome

/-- `Path.is_dir()` relative to Root; Root itself is a directory. -/
def isDirRel (fs : FS) (p : FsPath) : Bool :=
  p.isEmpty ||
    (match lookupFS fs p with
     | some Entry.dir => true
     | _ => false)

/-- `Path.is_file()` relative to Root. -/
def isFileRel (fs : FS) (p : FsPath) : Bool :=
  match lookupFS fs p with
  | some (Entry.file _) => true
  | _ => false

/-- `Path.iterdir()`: the immediate children of a directory. -/
def childrenOf (fs : FS) (p : FsPath) : FS :=
  fs.filter (fun kv => kv.1.length = p.length + 1 && p.isPrefixOf kv.1)

/-- Remove the entry at a path (`Path.rmdir` on an empty directory). -/
def eraseFS (fs : FS) (p : FsPath) : FS :=
  fs.filter (fun kv => !(decide (kv.1 = p)))

/-- `os.rename` / `shutil.move` of a tree rooted at `src` to `dst` (the
callers below only use it after their own existence checks): every entry
under `src` is re-rooted at `dst`, everything else is untouched. -/
def movePrim (fs : FS) (src dst : FsPath) : FS :=
  fs.map (fun kv =>
    if src.isPrefixOf kv.1 then (dst ++ kv.1.drop src.length, kv.2) else kv)

/-- All nonempty prefixes of a path, shortest first. -/
def prefixesOf (p : FsPath) : List FsPath :=
  (List.range p.length).map (fun i => p.take (i + 1))

/-- `Path.mkdir(parents=True, exist_ok=True)` in a single-threaded run: if
some prefix of the target is an existing file the call raises and creates
nothing; otherwise every missing prefix is created as a directory. -/
def mkdirParents (fs : FS) (p : FsPath) : Except String FS :=
  if (prefixesOf p).any (fun q => isFileRel fs q) then
    Except.error "[Errno 20] Not a directory"
  else
    Except.ok (fs ++ ((prefixesOf p).filter (fun q => !(existsRel fs q))).map
      (fun q => (q, Entry.dir)))

/-- Last component of a path (`Path.name`; empty for Root itself). -/
def nameOf (p : FsPath) : String :=
  p.getLastD ""

/-- Index of the last dot in a name, if any. -/
def lastDotIdx (cs : List Char) : Option Nat :=
  ((List.range cs.length).filter (fun i => cs.get? i = some '.')).getLast?

/-- `Path.stem` and `Path.suffix` in one step: split the name at its last
dot when that dot is neither the first nor the last character, otherwise
the suffix is empty (pathlib's rule, so ".bashrc" and "a." keep an empty
suffix).  The two pieces always concatenate back to the name. -/
def splitExt (nm : String) : String × String :=
  match lastDotIdx nm.toList with
  | some i =>
    if 0 < i ∧ i + 1 < nm.toList.length then
      (String.mk (nm.toList.take i), String.mk (nm.toList.drop i))
    else (nm, "")
  | none => (nm, "")

/-- `Path.stem`. -/
def pathStem (nm : String) : String := (splitExt nm).1

/-- `Path.suffix`. -/
def pathSuffix (nm : String) : String := (splitExt nm).2

/-- The candidate name `f"{stem} ({counter}){suffix}"` of
`_generate_safe_filename`. -/
def candidateName (stem suffix : String) (counter : Nat) : String :=
  stem ++ " (" ++ toString counter ++ ")" ++ suffix

/-- The last-resort name `f"{stem}_{timestamp}{suffix}"` of
`_generate_safe_filename`. -/
def fallbackName (stem suffix : String) (timestamp : Nat) : String :=
  stem ++ "_" ++ toString timestamp ++ suffix

/-- The `while True` loop of `_generate_safe_filename`: try the candidate
for the current counter; return it if unused; past 9999 attempts fall back
to the timestamp name.  `fuel` is a structural bound never reached from
the entry point (the counter check exits first); existence is read through
the live-tree oracle. -/
def genLoop (exists_ : FsPath → Bool) (parent : FsPath) (stem suffix : String)
    (timestamp : Nat) : Nat → Nat → FsPath
  | counter, 0 =>
    let newName := candidateName stem suffix counter
    if !(exists_ (parent ++ [newName])) then parent ++ [newName]
    else parent ++ [fallbackName stem suffix timestamp]
  | counter, fuel + 1 =>
    let newName := candidateName stem suffix counter
    if !(exists_ (parent ++ [newName])) then parent ++ [newName]
    else if counter + 1 > 9999 then parent ++ [fallbackName stem suffix timestamp]
    else genLoop exists_ parent stem suffix timestamp (counter + 1) fuel

/-- `SafeFilesystemOperations._generate_safe_filename`: starting at
counter 1, with the ambient clock passed explicitly for the fallback. -/
def generateSafeFilename (exists_ : FsPath → Bool) (originalPath : FsPath)
    (timestamp : Nat) : FsPath :=
  genLoop exists_ originalPath.dropLast (pathStem (nameOf originalPath))
    (pathSuffix (nameOf originalPath)) timestamp 1 9999

/-- Render a Root-relative path as `str(p.relative_to(root))` does. -/
def render (p : FsPath) : String :=
  match p with
  | [] => "."
  | c :: rest => rest.foldl (fun acc comp => acc ++ "/" ++ comp) c

/-- Render an absolute path as `str(p)` does on POSIX. -/
def renderAbs (p : FsPath) : String :=
  p.foldl (fun acc comp => acc ++ "/" ++ comp) ""

/-- One item of a `list_directory` result. -/
structure ItemRec where
  name : String
  path : String
  kind : String
  size : Option Nat
  deriving DecidableEq

/-- The `get_file_info` result (the stat-based modification time is not
modelled; the size of a file is its opaque content identifier). -/
structure InfoRec where
  name : String
  path : String
  kind : String
  size : Option Nat
  contentsCount : Option Nat
  deriving DecidableEq

/-- The `get_move_preview` result. -/
structure PreviewRec where
  source : String
  destination : String
  sourceType : String
  willCreateDirs : Bool
  conflict : Bool
  autoRenameTo : Option String
  conflictType : Option String
  dirsToCreate : Option String
  deriving DecidableEq

/-- One record of the `moved_files` bucket of `bulk_move_files`. -/
structure MovedRec where
  source : String
  destination : String
  deriving DecidableEq

/-- One record of the `renamed_files` bucket of `bulk_move_files`. -/
structure RenamedRec where
  original : String
  intended : String
  actual : Option String
  deriving DecidableEq

/-- One record of the `errors` bucket of `bulk_move_files`; the error text
is what `result.get("error")` read (absent when the key was missing). -/
structure ErrRec where
  file : String
  error : Option String
  deriving DecidableEq

/-- The result dicts of the operations.  `okMsg` models a
`{"success": True, "message": ..., "renamed": ..., "final_path": ...}`
dict whose last two keys are present only in the auto-rename branch;
`errRes` models `{"error": ...}`; the rest model the structured results of
the read-only operations and of the bulk move. -/
inductive PyRes
  | okMsg (message : String) (renamed : Option Bool) (finalPath : Option String)
  | errRes (msg : String)
  | listing (items : List ItemRec)
  | infoRes (i : InfoRec)
  | previewRes (p : PreviewRec)
  | bulkRes (movedFiles : List MovedRec) (renamedFiles : List RenamedRec)
      (errors : List ErrRec) (summary : String)
  deriving DecidableEq

/-- Truthiness of `result.get("success")` on the modelled dicts. -/
def resSuccess : PyRes → Bool
  | PyRes.okMsg _ _ _ => true
  | PyRes.bulkRes _ _ _ _ => true
  | _ => false

/-- Truthiness of `result.get("renamed")` on the modelled dicts. -/
def resRenamed : PyRes → Bool
  | PyRes.okMsg _ (some b) _ => b
  | _ => false

/-- `result.get("final_path")` on the modelled dicts. -/
def resFinalPath : PyRes → Option String
  | PyRes.okMsg _ _ fp => fp
  | _ => none

/-- `result.get("error")` on the modelled dicts. -/
def resError : PyRes → Option String
  | PyRes.errRes e => some e
  | _ => none

/-- `SafeFilesystemOperations.list_directory`.  `_safe_path` is called
outside the `try`, so its `ValueError` propagates to the caller, modelled
as the outer `Except.error`. -/
def listDirectory (root : FsPath) (fs : FS) (path : String) :
    Except String PyRes :=
  match safeRel root path with
  | Except.error e => Except.error e
  | Except.ok t =>
    if !(existsRel fs t) then
      Except.ok (PyRes.errRes ("Path does not exist: " ++ path))
    else if !(isDirRel fs t) then
      Except.ok (PyRes.errRes ("Path is not a directory: " ++ path))
    else
      Except.ok (PyRes.listing ((childrenOf fs t).map (fun kv =>
        { name := nameOf kv.1
          path := render kv.1
          kind := match kv.2 with
            | Entry.dir => "directory"
            | Entry.file _ => "file"
          size := match kv.2 with
            | Entry.file c => some c
            | Entry.dir => none })))

/-- `SafeFilesystemOperations.move_file` (the whole body is inside a
`try`, so a failing `_safe_path` or `mkdir` becomes the
`"Failed to move file: ..."` error dict). -/
def moveFile (root : FsPath) (fs : FS) (source destination : String)
    (autoRename : Bool) (now : Nat) : FS × PyRes :=
  match safeRel root source, safeRel root destination with
  | Except.error e, _ => (fs, PyRes.errRes ("Failed to move file: " ++ e))
  | _, Except.error e => (fs, PyRes.errRes ("Failed to move file: " ++ e))
  | Except.ok src, Except.ok dst =>
    if !(existsRel fs src) then
      (fs, PyRes.errRes ("Source does not exist: " ++ source))
    else if isDirRel fs src then
      (fs, PyRes.errRes "Use move_directory for directories")
    else
      let conflictStep : Option FsPath :=
        if existsRel fs dst then
          if !autoRename then none
          else some (generateSafeFilename (fun q => existsRel fs q) dst now)
        else some dst
      match conflictStep with
      | none =>
        (fs, PyRes.errRes ("Destination file already exists: " ++ destination ++
          ". File would be overwritten."))
      | some dstFinal =>
        match mkdirParents fs dstFinal.dropLast with
        | Except.error e => (fs, PyRes.errRes ("Failed to move file: " ++ e))
        | Except.ok fs1 =>
          let fs2 := movePrim fs1 src dstFinal
          if dstFinal ≠ dst then
            (fs2, PyRes.okMsg ("Moved " ++ source ++ " to " ++ render dstFinal ++
              " (renamed to avoid overwrite)") (some true) (some (render dstFinal)))
          else
            (fs2, PyRes.okMsg ("Moved " ++ source ++ " to " ++ destination)
              none none)

/-- `SafeFilesystemOperations.move_directory`. -/
def moveDirectory (root : FsPath) (fs : FS) (source destination : String)
    (autoRename : Bool) (now : Nat) : FS × PyRes :=
  match safeRel root source, safeRel root destination with
  | Except.error e, _ => (fs, PyRes.errRes ("Failed to move directory: " ++ e))
  | _, Except.error e => (fs, PyRes.errRes ("Failed to move directory: " ++ e))
  | Except.ok src, Except.ok dst =>
    if !(existsRel fs src) then
      (fs, PyRes.errRes ("Source does not exist: " ++ source))
    else if !(isDirRel fs src) then
      (fs, PyRes.errRes "Use move_file for files")
    else
      let conflictStep : Option FsPath :=
        if existsRel fs dst then
          if !autoRename then none
          else some (generateSafeFilename (fun q => existsRel fs q) dst now)
        else some dst
      match conflictStep with
      | none =>
        (fs, PyRes.errRes ("Destination directory already exists: " ++ destination ++
          ". Directory would be merged or overwritten."))
      | some dstFinal =>
        match mkdirParents fs dstFinal.dropLast with
        | Except.error e => (fs, PyRes.errRes ("Failed to move directory: " ++ e))
        | Except.ok fs1 =>
          let fs2 := movePrim fs1 src dstFinal
          if dstFinal ≠ dst then
            (fs2, PyRes.okMsg ("Moved directory " ++ source ++ " to " ++
              render dstFinal ++ " (renamed to avoid conflicts)") (some true)
              (some (render dstFinal)))
          else
            (fs2, PyRes.okMsg ("Moved directory " ++ source ++ " to " ++ destination)
              none none)

/-- `SafeFilesystemOperations.rename_file`.  `Path.rename` is `os.rename`:
it needs the target's parent to be an existing directory, otherwise the
raised `OSError` is caught and stringified. -/
def renameFile (root : FsPath) (fs : FS) (oldName newName : String) :
    FS × PyRes :=
  match safeRel root oldName, safeRel root newName with
  | Except.error e, _ => (fs, PyRes.errRes ("Failed to rename: " ++ e))
  | _, Except.error e => (fs, PyRes.errRes ("Failed to rename: " ++ e))
  | Except.ok oldP, Except.ok newP =>
    if !(existsRel fs oldP) then
      (fs, PyRes.errRes ("File does not exist: " ++ oldName))
    else if existsRel fs newP then
      (fs, PyRes.errRes ("Target name already exists: " ++ newName))
    else if isDirRel fs newP.dropLast then
      (movePrim fs oldP newP,
        PyRes.okMsg ("Renamed " ++ oldName ++ " to " ++ newName) none none)
    else
      (fs, PyRes.errRes "Failed to rename: [Errno 2] No such file or directory")

/-- `SafeFilesystemOperations.create_directory`. -/
def createDirectory (root : FsPath) (fs : FS) (path : String) : FS × PyRes :=
  match safeRel root path with
  | Except.error e => (fs, PyRes.errRes ("Failed to create directory: " ++ e))
  | Except.ok t =>
    if existsRel fs t then
      (fs, PyRes.errRes ("Directory already exists: " ++ path))
    else
      match mkdirParents fs t with
      | Except.error e => (fs, PyRes.errRes ("Failed to create directory: " ++ e))
      | Except.ok fs1 =>
        (fs1, PyRes.okMsg ("Created directory " ++ path) none none)

/-- `SafeFilesystemOperations.remove_empty_directory`. -/
def removeEmptyDirectory (root : FsPath) (fs : FS) (path : String) :
    FS × PyRes :=
  match safeRel root path with
  | Except.error e => (fs, PyRes.errRes ("Failed to remove directory: " ++ e))
  | Except.ok t =>
    if !(existsRel fs t) then
      (fs, PyRes.errRes ("Directory does not exist: " ++ path))
    else if !(isDirRel fs t) then
      (fs, PyRes.errRes ("Path is not a directory: " ++ path))
    else if !(childrenOf fs t).isEmpty then
      (fs, PyRes.errRes ("Directory is not empty: " ++ path))
    else
      (eraseFS fs t, PyRes.okMsg ("Removed empty directory " ++ path) none none)

/-- `SafeFilesystemOperations.get_file_info` (modification time is not
modelled). -/
def getFileInfo (root : FsPath) (fs : FS) (path : String) : PyRes :=
  match safeRel root path with
  | Except.error e => PyRes.errRes ("Failed to get file info: " ++ e)
  | Except.ok t =>
    if !(existsRel fs t) then
      PyRes.errRes ("Path does not exist: " ++ path)
    else
      PyRes.infoRes
        { name := nameOf t
          path := render t
          kind := if isDirRel fs t then "directory" else "file"
          size := match lookupFS fs t with
            | some (Entry.file c) => some c
            | _ => none
          contentsCount :=
            if isDirRel fs t then some (childrenOf fs t).length else none }

/-- `SafeFilesystemOperations.get_move_preview`. -/
def getMovePreview (root : FsPath) (fs : FS) (source destination : String)
    (now : Nat) : PyRes :=
  match safeRel root source, safeRel root destination with
  | Except.error e, _ => PyRes.errRes ("Failed to generate preview: " ++ e)
  | _, Except.error e => PyRes.errRes ("Failed to generate preview: " ++ e)
  | Except.ok s, Except.ok d =>
    if !(existsRel fs s) then
      PyRes.errRes ("Source does not exist: " ++ source)
    else
      PyRes.previewRes
        { source := source
          destination := destination
          sourceType := if isDirRel fs s then "directory" else "file"
          willCreateDirs := !(existsRel fs d.dropLast)
          conflict := existsRel fs d
          autoRenameTo :=
            if existsRel fs d then
              some (render (generateSafeFilename (fun q => existsRel fs q) d now))
            else none
          conflictType :=
            if existsRel fs d then
              some (if isDirRel fs d then "directory" else "file")
            else none
          dirsToCreate :=
            if !(existsRel fs d.dropLast) then some (render d.dropLast) else none }

/-- `fnmatch` on one path component, supporting the `*` and `?` wildcards
(character classes are not modelled); the structural fuel strictly
dominates the combined pattern and input length, so the zero-fuel arm is
unreachable from `fnmatchList`. -/
def fnmatchAux : Nat → List Char → List Char → Bool
  | 0, _, _ => false
  | _ + 1, [], s => s.isEmpty
  | fuel + 1, '*' :: ps, [] => fnmatchAux fuel ps []
  | fuel + 1, '*' :: ps, c :: s =>
    fnmatchAux fuel ps (c :: s) || fnmatchAux fuel ('*' :: ps) s
  | _ + 1, _ :: _, [] => false
  | fuel + 1, p :: ps, c :: s => (p = '?' || p = c) && fnmatchAux fuel ps s

/-- `fnmatch` on one path component. -/
def fnmatchList (ps s : List Char) : Bool :=
  fnmatchAux (ps.length + s.length + 1) ps s

/-- `Path.glob(pattern)` membership test: split the pattern at slashes and
match component-wise against a Root-relative path. -/
def globMatch (pattern : String) (p : FsPath) : Bool :=
  let segs := (splitSlash pattern.toList).map (fun l => String.mk l)
  segs.length = p.length &&
    (segs.zip p).all (fun sc => fnmatchList sc.1.toList sc.2.toList)

/-- `self.root_path.glob(pattern)`: the entries of the live tree whose
Root-relative path matches the pattern. -/
def globFS (fs : FS) (pattern : String) : List FsPath :=
  (fs.map (fun kv => kv.1)).filter (fun p => globMatch pattern p)

/-- The three accumulating buckets of `bulk_move_files`. -/
abbrev BulkAcc := List MovedRec × List RenamedRec × List ErrRec

/-- Concatenate bucket triples. -/
def accAppend (a b : BulkAcc) : BulkAcc :=
  (a.1 ++ b.1, a.2.1 ++ b.2.1, a.2.2 ++ b.2.2)

/-- The per-file bucketing of `bulk_move_files` lines 278-294: a truthy
`success` goes to `renamed_files` or `moved_files` depending on the truthy
`renamed` flag, anything else goes to `errors`. -/
def bucketOf (relSource relDest : String) (res : PyRes) : BulkAcc :=
  if resSuccess res then
    if resRenamed res then
      ([], [{ original := relSource, intended := relDest,
              actual := resFinalPath res }], [])
    else
      ([{ source := relSource, destination := relDest }], [], [])
  else
    ([], [], [{ file := relSource, error := resError res }])

/-- The inner `for file_path in matching_files` loop of `bulk_move_files`:
only entries that are files at processing time are moved; the intended
destination string is the absolute `str(dst_dir_path / file_path.name)`;
each processed file contributes exactly one bucket record and the loop
continues past failures. -/
def processFiles (root dstDir : FsPath) (autoRename : Bool) (now : Nat) :
    FS → List FsPath → FS × BulkAcc
  | fs, [] => (fs, ([], [], []))
  | fs, f :: rest =>
    if isFileRel fs f then
      let relSource := render f
      let relDest := renderAbs (root ++ dstDir ++ [nameOf f])
      let mres := moveFile root fs relSource relDest autoRename now
      let step := processFiles root dstDir autoRename now mres.1 rest
      (step.1, accAppend (bucketOf relSource relDest mres.2) step.2)
    else
      processFiles root dstDir autoRename now fs rest

/-- The outer `for pattern in file_patterns` loop of `bulk_move_files`:
each pattern's matches are computed against the tree as it stands when
that pattern is reached. -/
def processFilePatterns (root dstDir : FsPath) (autoRename : Bool) (now : Nat) :
    FS → List String → FS × BulkAcc
  | fs, [] => (fs, ([], [], []))
  | fs, pat :: rest =>
    let step1 := processFiles root dstDir autoRename now fs (globFS fs pat)
    let step2 := processFilePatterns root dstDir autoRename now step1.1 rest
    (step2.1, accAppend step1.2 step2.2)

/-- `SafeFilesystemOperations.bulk_move_files`. -/
def bulkMoveFiles (root : FsPath) (fs : FS) (filePatterns : List String)
    (destinationDir : String) (autoRename : Bool) (now : Nat) : FS × PyRes :=
  match safeRel root destinationDir with
  | Except.error e => (fs, PyRes.errRes ("Bulk move failed: " ++ e))
  | Except.ok dstDir =>
    match mkdirParents fs dstDir with
    | Except.error e => (fs, PyRes.errRes ("Bulk move failed: " ++ e))
    | Except.ok fs0 =>
      let run := processFilePatterns root dstDir autoRename now fs0 filePatterns
      (run.1, PyRes.bulkRes run.2.1 run.2.2.1 run.2.2.2
        ("Moved " ++ toString run.2.1.length ++ " files, renamed " ++
          toString run.2.2.1.length ++ " to avoid conflicts, " ++
          toString run.2.2.2.length ++ " errors"))

/-- Specification-side count, following the spec's words "the total number
of files matched across all patterns": how many matched entries the inner
loop sees as files, each pattern expanded against the tree as it stands
when the loop reaches it (the state evolves by the very moves the
operation performs). -/
def specMatchedFiles (root dstDir : FsPath) (autoRename : Bool) (now : Nat) :
    FS → List FsPath → Nat
  | _, [] => 0
  | fs, f :: rest =>
    if isFileRel fs f then
      1 + specMatchedFiles root dstDir autoRename now
        (moveFile root fs (render f) (renderAbs (root ++ dstDir ++ [nameOf f]))
          autoRename now).1 rest
    else
      specMatchedFiles root dstDir autoRename now fs rest

/-- Specification-side total across all patterns (see `specMatchedFiles`). -/
def specMatchedTotal (root dstDir : FsPath) (autoRename : Bool) (now : Nat) :
    FS → List String → Nat
  | _, [] => 0
  | fs, pat :: rest =>
    specMatchedFiles root dstDir autoRename now fs (globFS fs pat) +
      specMatchedTotal root dstDir autoRename now
        (processFiles root dstDir autoRename now fs (globFS fs pat)).1 rest

/-- Specification-side total for a whole `bulk_move_files` call. -/
def specBulkTotalMatched (root : FsPath) (fs : FS) (filePatterns : List String)
    (destinationDir : String) (autoRename : Bool) (now : Nat) : Nat :=
  match safeRel root destinationDir with
  | Except.error _ => 0
  | Except.ok dstDir =>
    match mkdirParents fs dstDir with
    | Except.error _ => 0
    | Except.ok fs0 =>
      specMatchedTotal root dstDir autoRename now fs0 filePatterns

/-- A parameter value of an action request (a flat string-keyed mapping
whose values are strings, string lists, or booleans). -/
inductive PValue
  | str (s : String)
  | strList (l : List String)
  | bool (b : Bool)
  deriving DecidableEq

/-- The parameter mapping of an action request. -/
abbrev Params := List (String × PValue)

/-- Python truthiness of a parameter value. -/
def truthy : PValue → Bool
  | PValue.str s => !(decide (s = ""))
  | PValue.strList l => !l.isEmpty
  | PValue.bool b => b

/-- `parameters.get(key)`. -/
def getParam (ps : Params) (k : String) : Option PValue :=
  assocLookup ps k

/-- Python's `a or b` on two optional values (`dict.get` yields `None`
for a missing key, and a falsy first operand selects the second). -/
def pyOr (a b : Option PValue) : Option PValue :=
  match a with
  | some v => if truthy v then some v else b
  | none => b

/-- Truthiness of an optional value (`not source` on a `get` result). -/
def truthyOpt : Option PValue → Bool
  | some v => truthy v
  | none => false

/-- Lowercase a string (`str.lower`, ASCII as used by the source's
patterns). -/
def lowerStr (s : String) : String :=
  String.mk (s.toList.map Char.toLower)

/-- Substring test on character lists (`pattern in path_lower`). -/
def listContains (needle : List Char) : List Char → Bool
  | [] => needle.isEmpty
  | c :: rest => needle.isPrefixOf (c :: rest) || listContains needle rest

/-- The protected system path substrings of
`SafetyValidator._is_system_file`. -/
def systemFileSubstrings : List String :=
  ["system32", "windows", "program files", "boot.ini", "ntldr",
   "autoexec.bat", "config.sys", "pagefile.sys", "hiberfil.sys",
   "/etc/", "/bin/", "/sbin/", "/usr/bin/", "/usr/sbin/",
   "/boot/", "/sys/", "/proc/", "/dev/"]

/-- `SafetyValidator._is_system_file`. -/
def isSystemFile (filePath : String) : Bool :=
  systemFileSubstrings.any (fun pat =>
    listContains pat.toList (lowerStr filePath).toList)

/-- `_is_system_file` applied to the `or`-selected destination value; the
source would raise `AttributeError` on a non-string value (never exercised
in the repository), modelled here as a non-match. -/
def isSystemFilePV : PValue → Bool
  | PValue.str s => isSystemFile s
  | _ => false

/-- The `allowed_actions` allowlist of `SafetyValidator.validate_action`
(lines 109-117 of `safety_validator.py`): seven action kinds. -/
def allowedActions : List String :=
  ["list_directory", "move_file", "move_directory", "rename_file",
   "create_directory", "remove_empty_directory", "get_file_info"]

/-- `SafetyValidator.validate_action`.  The compiled dangerous-pattern
regex matcher (`_contains_dangerous_patterns`) is the `dangerous` oracle;
everything else — the allowlist check, the per-string-parameter scan, the
required source/destination check for moves and renames, and the protected
system-file check — is modelled directly. -/
def validateAction (dangerous : String → Bool) (action : String)
    (parameters : Params) : Bool :=
  if !(allowedActions.contains action) then false
  else if parameters.any (fun kv =>
      match kv.2 with
      | PValue.str s => dangerous s
      | _ => false) then false
  else if ["move_file", "move_directory", "rename_file"].contains action then
    let source := pyOr (getParam parameters "source") (getParam parameters "old_name")
    let destination :=
      pyOr (getParam parameters "destination") (getParam parameters "new_name")
    if !(truthyOpt source) || !(truthyOpt destination) then false
    else
      match destination with
      | some d => !(isSystemFilePV d)
      | none => false
  else true

/-- Read a required string parameter for keyword dispatch. -/
def getStrParam (ps : Params) (k : String) : Option String :=
  match getParam ps k with
  | some (PValue.str s) => some s
  | _ => none

/-- Read a required string-list parameter for keyword dispatch. -/
def getStrListParam (ps : Params) (k : String) : Option (List String) :=
  match getParam ps k with
  | some (PValue.strList l) => some l
  | _ => none

/-- Read an optional parameter with a default, used truthily as the source
uses `auto_rename`. -/
def getBoolParamD (ps : Params) (k : String) (dflt : Bool) : Bool :=
  match getParam ps k with
  | some v => truthy v
  | none => dflt

/-- The `action_map` of `FilesystemLLM._execute_action` (lines 402-412 of
`llm_interface.py`): the dispatchable action kinds and their handlers.
Each handler unpacks its keyword parameters; a missing or ill-typed
required parameter is the `TypeError` of `**parameters` unpacking,
modelled as a raised `Except.error` that `_execute_action` catches. -/
def actionMap :
    List (String × (FsPath → Nat → FS → Params → Except String (FS × PyRes))) :=
  [("list_directory", fun root _ fs ps =>
      match getParam ps "path" with
      | none =>
        (listDirectory root fs "").map (fun r => (fs, r))
      | some (PValue.str s) =>
        (listDirectory root fs s).map (fun r => (fs, r))
      | some _ => Except.error "invalid keyword arguments"),
   ("move_file", fun root now fs ps =>
      match getStrParam ps "source", getStrParam ps "destination" with
      | some s, some d =>
        Except.ok (moveFile root fs s d (getBoolParamD ps "auto_rename" true) now)
      | _, _ => Except.error "invalid keyword arguments"),
   ("move_directory", fun root now fs ps =>
      match getStrParam ps "source", getStrParam ps "destination" with
      | some s, some d =>
        Except.ok (moveDirectory root fs s d (getBoolParamD ps "auto_rename" true) now)
      | _, _ => Except.error "invalid keyword arguments"),
   ("rename_file", fun root _ fs ps =>
      match getStrParam ps "old_name", getStrParam ps "new_name" with
      | some o, some n => Except.ok (renameFile root fs o n)
      | _, _ => Except.error "invalid keyword arguments"),
   ("create_directory", fun root _ fs ps =>
      match getStrParam ps "path" with
      | some p => Except.ok (createDirectory root fs p)
      | none => Except.error "invalid keyword arguments"),
   ("remove_empty_directory", fun root _ fs ps =>
      match getStrParam ps "path" with
      | some p => Except.ok (removeEmptyDirectory root fs p)
      | none => Except.error "invalid keyword arguments"),
   ("get_file_info", fun root _ fs ps =>
      match getStrParam ps "path" with
      | some p => Except.ok (fs, getFileInfo root fs p)
      | none => Except.error "invalid keyword arguments"),
   ("get_move_preview", fun root now fs ps =>
      match getStrParam ps "source", getStrParam ps "destination" with
      | some s, some d => Except.ok (fs, getMovePreview root fs s d now)
      | _, _ => Except.error "invalid keyword arguments"),
   ("bulk_move_files", fun root now fs ps =>
      match getStrListParam ps "file_patterns", getStrParam ps "destination_dir" with
      | some pats, some d =>
        Except.ok (bulkMoveFiles root fs pats d (getBoolParamD ps "auto_rename" true) now)
      | _, _ => Except.error "invalid keyword arguments")]

/-- The action kinds dispatchable by `action_map`. -/
def actionMapKeys : List String :=
  actionMap.map (fun kv => kv.1)

/-- `FilesystemLLM._execute_action` (lines 393-426): look the action kind
up in `action_map`; an unmapped kind yields the `"Unknown action"` error
dict; a mapped kind is dispatched, with any raised exception stringified.
No call to `SafetyValidator.validate_action` occurs on this path. -/
def executeAction (root : FsPath) (now : Nat) (fs : FS) (action : String)
    (parameters : Params) : FS × PyRes :=
  match assocLookup actionMap action with
  | none => (fs, PyRes.errRes ("Unknown action: " ++ action))
  | some h =>
    match h root now fs parameters with
    | Except.ok res => res
    | Except.error e =>
      (fs, PyRes.errRes ("Error executing " ++ action ++ ": " ++ e))

/-- The step function of `resolveDots`, named for the proofs below. -/
def dotStep (acc : List String) (c : String) : List String :=
  if c = ".." then acc.dropLast else acc ++ [c]

/-- The k-th candidate path `_generate_safe_filename` tries for a
conflicting destination: same parent, name `"stem (k)suffix"`. -/
def candidatePath (p : FsPath) (k : Nat) : FsPath :=
  p.dropLast ++ [candidateName (pathStem (nameOf p)) (pathSuffix (nameOf p)) k]

theorem resolveDots_eq_foldl (l : List String) :
    resolveDots l = l.foldl dotStep [] := rfl

theorem foldl_dotStep_no_dots (l : List String) : ∀ acc, ".." ∉ l →
    l.foldl dotStep acc = acc ++ l := by
  induction l with
  | nil => intro acc _; simp
  | cons c t ih =>
    intro acc h
    have hc : c ≠ ".." := fun e => h (by simp [e])
    simp only [List.foldl_cons, dotStep, if_neg hc]
    rw [ih (acc ++ [c]) (fun hm => h (List.mem_cons_of_mem _ hm))]
    simp

theorem foldl_dotStep_not_mem (l : List String) : ∀ acc, ".." ∉ acc →
    ".." ∉ l.foldl dotStep acc := by
  induction l with
  | nil => exact fun acc h => h
  | cons c t ih =>
    intro acc h
    simp only [List.foldl_cons, dotStep]
    by_cases hc : c = ".."
    · rw [if_pos hc]
      exact ih _ (fun hm => h ((List.dropLast_sublist acc).subset hm))
    · rw [if_neg hc]
      refine ih _ (fun hm => ?_)
      rcases List.mem_append.mp hm with h1 | h2
      · exact h h1
      · simp only [List.mem_singleton] at h2
        exact hc h2.symm

theorem resolveDots_not_mem (l : List String) : ".." ∉ resolveDots l := by
  rw [resolveDots_eq_foldl]
  exact foldl_dotStep_not_mem l [] (by simp)

theorem resolveDots_idem (l : List String) :
    resolveDots (resolveDots l) = resolveDots l := by
  rw [resolveDots_eq_foldl (resolveDots l)]
  rw [foldl_dotStep_no_dots (resolveDots l) [] (resolveDots_not_mem l)]
  simp

/-- Claim C1 — Confinement: for every input string, `_safe_path` either
returns an absolute path of which Root is a components-prefix (Root itself
or a descendant), or raises the path-outside-root `ValueError`; whenever
the resolved join fails the confinement test — in particular for `".."`
inputs escaping Root and for absolute paths outside Root — the call always
fails and never silently clamps the path into Root. -/
theorem claim_C1_confinement (root : FsPath) (s : String) :
    (∀ q, safePath root s = Except.ok q → root.isPrefixOf q = true) ∧
    (validatePath root (resolveDots (joinedInput root s)) = false →
      ∃ m, safePath root s = Except.error m) := by
  constructor
  · intro q h
    unfold safePath at h
    by_cases hv : validatePath root (resolveDots (joinedInput root s)) = true
    · rw [if_pos hv] at h
      cases h
      unfold validatePath at hv
      rwa [resolveDots_idem] at hv
    · rw [if_neg hv] at h
      cases h
  · intro hv
    refine ⟨"Path outside allowed directory: " ++ s, ?_⟩
    unfold safePath
    rw [if_neg (by simp [hv])]

/-- Witness for C1: a benign traversal inside Root resolves under Root,
and an escaping input (`"../x"`) fails with the path-outside-root error. -/
theorem claim_C1_confinement_witness :
    (["home", "user"] : FsPath).isPrefixOf ["home", "user", "notes", "a.txt"] = true ∧
    (∃ m, safePath ["home", "user"] "../x" = Except.error m) := by
  constructor
  · exact (claim_C1_confinement ["home", "user"] "docs/../notes/a.txt").1
      ["home", "user", "notes", "a.txt"] (by rfl)
  · exact (claim_C1_confinement ["home", "user"] "../x").2 (by rfl)

theorem splitExt_append (nm : String) : (splitExt nm).1 ++ (splitExt nm).2 = nm := by
  unfold splitExt
  cases h : lastDotIdx nm.toList with
  | none => simp
  | some i =>
    show (if 0 < i ∧ i + 1 < nm.toList.length then
        (String.mk (nm.toList.take i), String.mk (nm.toList.drop i))
      else (nm, "")).1 ++
      (if 0 < i ∧ i + 1 < nm.toList.length then
        (String.mk (nm.toList.take i), String.mk (nm.toList.drop i))
      else (nm, "")).2 = nm
    by_cases hr : 0 < i ∧ i + 1 < nm.toList.length
    · rw [if_pos hr]
      show String.mk (nm.toList.take i ++ nm.toList.drop i) = nm
      rw [List.take_append_drop]
      rfl
    · rw [if_neg hr]
      simp

theorem candidateName_length (stem suffix : String) (k : Nat) :
    (stem ++ suffix).length < (candidateName stem suffix k).length := by
  unfold candidateName
  have h1 : (" (" : String).length = 2 := by decide
  have h2 : (")" : String).length = 1 := by decide
  simp only [String.length_append, h1, h2]
  omega

theorem fallbackName_length (stem suffix : String) (t : Nat) :
    (stem ++ suffix).length < (fallbackName stem suffix t).length := by
  unfold fallbackName
  have h1 : ("_" : String).length = 1 := by decide
  simp only [String.length_append, h1]
  omega

theorem genLoop_shape (ex : FsPath → Bool) (parent : FsPath) (stem suffix : String)
    (t : Nat) : ∀ fuel counter, ∃ nm,
    genLoop ex parent stem suffix t counter fuel = parent ++ [nm] ∧
    (stem ++ suffix).length < nm.length := by
  intro fuel
  induction fuel with
  | zero =>
    intro counter
    unfold genLoop
    by_cases h : ex (parent ++ [candidateName stem suffix counter]) = true
    · simp only [h, Bool.not_true, if_neg (by simp : ¬ (false = true))]
      exact ⟨fallbackName stem suffix t, rfl, fallbackName_length stem suffix t⟩
    · have h0 : ex (parent ++ [candidateName stem suffix counter]) = false :=
        Bool.eq_false_iff.mpr h
      simp only [h0, Bool.not_false, if_pos rfl]
      exact ⟨candidateName stem suffix counter, rfl,
        candidateName_length stem suffix counter⟩
  | succ fuel ih =>
    intro counter
    unfold genLoop
    by_cases h : ex (parent ++ [candidateName stem suffix counter]) = true
    · simp only [h, Bool.not_true, if_neg (by simp : ¬ (false = true))]
      by_cases h2 : counter + 1 > 9999
      · rw [if_pos h2]
        exact ⟨fallbackName stem suffix t, rfl, fallbackName_length stem suffix t⟩
      · rw [if_neg h2]
        exact ih (counter + 1)
    · have h0 : ex (parent ++ [candidateName stem suffix counter]) = false :=
        Bool.eq_false_iff.mpr h
      simp only [h0, Bool.not_false, if_pos rfl]
      exact ⟨candidateName stem suffix counter, rfl,
        candidateName_length stem suffix counter⟩

theorem gen_shape (ex : FsPath → Bool) (p : FsPath) (t : Nat) :
    ∃ nm, generateSafeFilename ex p t = p.dropLast ++ [nm] ∧
      (nameOf p).length < nm.length := by
  obtain ⟨nm, h1, h2⟩ := genLoop_shape ex p.dropLast (pathStem (nameOf p))
    (pathSuffix (nameOf p)) t 9999 1
  refine ⟨nm, h1, ?_⟩
  have := splitExt_append (nameOf p)
  unfold pathStem pathSuffix at h2
  rwa [this] at h2

theorem dropLast_append_nameOf (p : FsPath) (h : p ≠ []) :
    p.dropLast ++ [nameOf p] = p := by
  have hn : nameOf p = p.getLast h := by
    unfold nameOf
    rw [List.getLastD_eq_getLast?, List.getLast?_eq_getLast p h]
    rfl
  rw [hn]
  exact List.dropLast_append_getLast h

theorem concat_not_ancestor (p : FsPath) (nm : String)
    (hlen : (nameOf p).length < nm.length) : ¬ (p.dropLast ++ [nm] <+: p) := by
  intro hp
  have hle := hp.length_le
  have hpne : p ≠ [] := by
    intro h
    subst h
    simp at hle
  have hlp : p.dropLast.length + 1 = p.length := by
    have h1 := List.length_dropLast p
    have h2 := List.length_pos.mpr hpne
    omega
  have heq := hp.eq_of_length (by simp [List.length_append]; omega)
  have h2 := dropLast_append_nameOf p hpne
  have h3 := List.append_cancel_left (heq.trans h2.symm)
  simp only [List.cons.injEq] at h3
  have : nm = nameOf p := h3.1
  rw [this] at hlen
  omega

theorem concat_ne_self (p : FsPath) (nm : String)
    (hlen : (nameOf p).length < nm.length) : p.dropLast ++ [nm] ≠ p := by
  intro h
  exact concat_not_ancestor p nm hlen ⟨[], by simp [h]⟩

theorem assocLookup_append_of_some {α β : Type} [DecidableEq α]
    {l1 : List (α × β)} (l2 : List (α × β)) {a : α} {v : β}
    (h : assocLookup l1 a = some v) : assocLookup (l1 ++ l2) a = some v := by
  induction l1 with
  | nil => simp [assocLookup] at h
  | cons kv rest ih =>
    obtain ⟨k, w⟩ := kv
    rw [List.cons_append]
    unfold assocLookup at h ⊢
    by_cases hk : k = a
    · rwa [if_pos hk] at h ⊢
    · rw [if_neg hk] at h ⊢
      exact ih h

theorem assocLookup_mem {α β : Type} [DecidableEq α]
    {l : List (α × β)} {a : α} {v : β}
    (h : assocLookup l a = some v) : (a, v) ∈ l := by
  induction l with
  | nil => simp [assocLookup] at h
  | cons kv rest ih =>
    obtain ⟨k, w⟩ := kv
    unfold assocLookup at h
    by_cases hk : k = a
    · rw [if_pos hk] at h
      subst hk
      cases h
      exact List.mem_cons_self _ _
    · rw [if_neg hk] at h
      exact List.mem_cons_of_mem _ (ih h)

theorem assocLookup_eq_none {α β : Type} [DecidableEq α]
    (l : List (α × β)) (a : α)
    (h : a ∉ l.map (fun kv => kv.1)) : assocLookup l a = none := by
  induction l with
  | nil => rfl
  | cons kv rest ih =>
    obtain ⟨k, w⟩ := kv
    unfold assocLookup
    rw [if_neg (fun e => h (by simp [e]))]
    exact ih (fun hm => h (by simp at hm ⊢; exact Or.inr hm))

theorem lookupFS_movePrim (fs : FS) (src dst q : FsPath)
    (h1 : src.isPrefixOf q = false)
    (h2 : ∀ u : FsPath, src.isPrefixOf u = true → dst ++ u.drop src.length ≠ q) :
    lookupFS (movePrim fs src dst) q = lookupFS fs q := by
  induction fs with
  | nil => rfl
  | cons kv rest ih =>
    obtain ⟨k, e⟩ := kv
    unfold movePrim at ih ⊢
    rw [List.map_cons]
    by_cases hk : src.isPrefixOf k = true
    · rw [if_pos hk]
      have hkq : k ≠ q := by
        intro hkq
        rw [hkq] at hk
        rw [hk] at h1
        cases h1
      simp only [lookupFS, assocLookup]
      rw [if_neg (h2 k hk), if_neg hkq]
      exact ih
    · rw [if_neg hk]
      simp only [lookupFS, assocLookup]
      by_cases hkq : k = q
      · rw [if_pos hkq, if_pos hkq]
      · rw [if_neg hkq, if_neg hkq]
        exact ih

theorem movePrim_mem (fs : FS) (src dst : FsPath) {q : FsPath} {e : Entry}
    (hm : (q, e) ∈ fs) (h : src.isPrefixOf q = true) :
    (dst ++ q.drop src.length, e) ∈ movePrim fs src dst := by
  unfold movePrim
  have hmap := List.mem_map_of_mem (fun kv : FsPath × Entry =>
    if src.isPrefixOf kv.1 = true then (dst ++ kv.1.drop src.length, kv.2) else kv) hm
  simp only at hmap
  rw [if_pos h] at hmap
  exact hmap

/-- Claim C2 (amended) — No-overwrite on auto-rename for a source distinct
from (and not an ancestor of) the destination: when the resolved source is
an existing file, the resolved destination an existing file of content
`C`, and no prefix of the destination's parent is a file, the auto-rename
move succeeds, leaves the conflicting entry at the destination unchanged
(re-reading it still yields `C`), and places the source's content at some
path different from the destination; the conflicting entry is never read,
moved, or modified. -/
theorem claim_C2_amended (root : FsPath) (fs : FS) (S D : String)
    (s d : FsPath) (A C now : Nat)
    (hs : safeRel root S = Except.ok s) (hd : safeRel root D = Except.ok d)
    (hpre : s.isPrefixOf d = false)
    (hA : lookupFS fs s = some (Entry.file A))
    (hC : lookupFS fs d = some (Entry.file C))
    (hmk : (prefixesOf d.dropLast).any (fun q => isFileRel fs q) = false) :
    lookupFS (moveFile root fs S D true now).1 d = some (Entry.file C) ∧
    (∃ p, p ≠ d ∧ (p, Entry.file A) ∈ (moveFile root fs S D true now).1) ∧
    resSuccess (moveFile root fs S D true now).2 = true := by
  have hsne : s ≠ [] := by
    intro h
    subst h
    simp [List.isPrefixOf] at hpre
  have hex_s : existsRel fs s = true := by
    simp [existsRel, hA]
  have hdir_s : isDirRel fs s = false := by
    unfold isDirRel
    rw [hA]
    simp [List.isEmpty_eq_false.mpr hsne]
  have hex_d : existsRel fs d = true := by
    simp [existsRel, hC]
  obtain ⟨nm, hgen, hlen⟩ := gen_shape (fun q => existsRel fs q) d now
  have hdne : d.dropLast ++ [nm] ≠ d := concat_ne_self d nm hlen
  have hdrop : (d.dropLast ++ [nm]).dropLast = d.dropLast := List.dropLast_concat
  have hmove : moveFile root fs S D true now =
      (movePrim (fs ++ ((prefixesOf d.dropLast).filter
          (fun q => !(existsRel fs q))).map (fun q => (q, Entry.dir)))
        s (d.dropLast ++ [nm]),
       PyRes.okMsg ("Moved " ++ S ++ " to " ++ render (d.dropLast ++ [nm]) ++
         " (renamed to avoid overwrite)") (some true)
         (some (render (d.dropLast ++ [nm])))) := by
    unfold moveFile
    rw [hs, hd]
    simp only [hex_s, hdir_s, hex_d, Bool.not_true, Bool.not_false,
      Bool.false_eq_true, if_false, if_true, ite_true, ite_false,
      eq_self_iff_true]
    rw [hgen]
    rw [hdrop]
    unfold mkdirParents
    rw [if_neg (by simp [hmk])]
    simp only [if_pos hdne]
  rw [hmove]
  set ext := ((prefixesOf d.dropLast).filter
    (fun q => !(existsRel fs q))).map (fun q => (q, Entry.dir)) with hext
  refine ⟨?_, ⟨d.dropLast ++ [nm], hdne, ?_⟩, rfl⟩
  · rw [lookupFS_movePrim (fs ++ ext) s (d.dropLast ++ [nm]) d hpre
      (fun u hu he => concat_not_ancestor d nm hlen ⟨u.drop s.length, he⟩)]
    exact assocLookup_append_of_some ext hC
  · have hmem : (s, Entry.file A) ∈ fs ++ ext :=
      List.mem_append_left ext (assocLookup_mem hA)
    have := movePrim_mem (fs ++ ext) s (d.dropLast ++ [nm]) hmem
      (List.isPrefixOf_iff_prefix.mpr (List.prefix_refl s))
    rwa [List.drop_length, List.append_nil] at this

/-- Witness for C2 (amended): moving `a.txt` onto the existing
`docs/a.txt` keeps the old content at `docs/a.txt` and lands the moved
content at `docs/a (1).txt`. -/
theorem claim_C2_amended_witness :
    lookupFS (moveFile ["sb"] [(["docs"], Entry.dir),
        (["docs", "a.txt"], Entry.file 5), (["a.txt"], Entry.file 9)]
      "a.txt" "docs/a.txt" true 0).1 ["docs", "a.txt"] = some (Entry.file 5) ∧
    (∃ p, p ≠ ["docs", "a.txt"] ∧ (p, Entry.file 9) ∈
      (moveFile ["sb"] [(["docs"], Entry.dir),
        (["docs", "a.txt"], Entry.file 5), (["a.txt"], Entry.file 9)]
      "a.txt" "docs/a.txt" true 0).1) ∧
    resSuccess (moveFile ["sb"] [(["docs"], Entry.dir),
        (["docs", "a.txt"], Entry.file 5), (["a.txt"], Entry.file 9)]
      "a.txt" "docs/a.txt" true 0).2 = true :=
  claim_C2_amended ["sb"]
    [(["docs"], Entry.dir), (["docs", "a.txt"], Entry.file 5),
     (["a.txt"], Entry.file 9)]
    "a.txt" "docs/a.txt" ["a.txt"] ["docs", "a.txt"] 9 5 0
    (by rfl) (by rfl) (by decide) (by decide) (by decide) (by decide)

/-- Counterexample for C2 as stated: with source equal to destination
(`move_file("a.txt", "a.txt", auto_rename=True)` on an existing file) the
operation reports success but renames the file away, so re-reading the
destination afterwards finds nothing — not the original content. -/
theorem claim_C2_counterexample :
    lookupFS (moveFile ["sb"] [(["a.txt"], Entry.file 7)]
      "a.txt" "a.txt" true 0).1 ["a.txt"] = none ∧
    resSuccess (moveFile ["sb"] [(["a.txt"], Entry.file 7)]
      "a.txt" "a.txt" true 0).2 = true := by
  decide

/-- Claim C5 (amended) — Strict-mode conflict atomicity for an existing
source of the matching kind: when the resolved source exists (a file for
`move_file`, a directory for `move_directory`) and the resolved
destination exists, a move with `auto_rename=False` fails with the
destination-conflict error and leaves the whole tree unchanged. -/
theorem claim_C5_amended (root : FsPath) (fs : FS) (S D : String) (now : Nat)
    (s d : FsPath)
    (hs : safeRel root S = Except.ok s) (hd : safeRel root D = Except.ok d)
    (hexd : existsRel fs d = true) :
    (existsRel fs s = true → isDirRel fs s = false →
      moveFile root fs S D false now =
        (fs, PyRes.errRes ("Destination file already exists: " ++ D ++
          ". File would be overwritten."))) ∧
    (existsRel fs s = true → isDirRel fs s = true →
      moveDirectory root fs S D false now =
        (fs, PyRes.errRes ("Destination directory already exists: " ++ D ++
          ". Directory would be merged or overwritten."))) := by
  constructor
  · intro hes hdir
    unfold moveFile
    rw [hs, hd]
    simp only [hes, hdir, hexd, Bool.not_true, Bool.not_false,
      Bool.false_eq_true, if_false, if_true, ite_true, ite_false,
      eq_self_iff_true]
  · intro hes hdir
    unfold moveDirectory
    rw [hs, hd]
    simp only [hes, hdir, hexd, Bool.not_true, Bool.not_false,
      Bool.false_eq_true, if_false, if_true, ite_true, ite_false,
      eq_self_iff_true]

/-- Witness for C5 (amended): a strict file move and a strict directory
move onto existing destinations both fail with the conflict error and
leave the tree untouched. -/
theorem claim_C5_amended_witness :
    (moveFile ["sb"] [(["a.txt"], Entry.file 1), (["b.txt"], Entry.file 2)]
        "a.txt" "b.txt" false 0 =
      ([(["a.txt"], Entry.file 1), (["b.txt"], Entry.file 2)],
        PyRes.errRes "Destination file already exists: b.txt. File would be overwritten.")) ∧
    (moveDirectory ["sb"] [(["d1"], Entry.dir), (["d2"], Entry.dir)]
        "d1" "d2" false 0 =
      ([(["d1"], Entry.dir), (["d2"], Entry.dir)],
        PyRes.errRes "Destination directory already exists: d2. Directory would be merged or overwritten.")) := by
  constructor
  · exact (claim_C5_amended ["sb"]
      [(["a.txt"], Entry.file 1), (["b.txt"], Entry.file 2)] "a.txt" "b.txt" 0
      ["a.txt"] ["b.txt"] (by rfl) (by rfl) (by decide)).1 (by decide) (by decide)
  · exact (claim_C5_amended ["sb"]
      [(["d1"], Entry.dir), (["d2"], Entry.dir)] "d1" "d2" 0
      ["d1"] ["d2"] (by rfl) (by rfl) (by decide)).2 (by decide) (by decide)

/-- Counterexample for C5 as stated: with the destination existing and
`auto_rename=False` but a missing source, the call fails with the
source-not-found error, not with the destination-conflict error the claim
requires for every such move. -/
theorem claim_C5_counterexample :
    moveFile ["sb"] [(["b.txt"], Entry.file 1)] "a.txt" "b.txt" false 0 =
      ([(["b.txt"], Entry.file 1)],
        PyRes.errRes "Source does not exist: a.txt") ∧
    (moveFile ["sb"] [(["b.txt"], Entry.file 1)] "a.txt" "b.txt" false 0).2 ≠
      PyRes.errRes ("Destination file already exists: b.txt. File would be overwritten.") := by
  constructor
  · rfl
  · decide

/-- Claim C7 — Non-empty directory guard: a `remove_empty_directory` call
on a resolved existing directory with at least one entry of any kind fails
with the directory-not-empty error and changes nothing; and whenever the
call mutates the tree at all, it did so by erasing a single resolved
directory entry whose child list was empty (it never recurses and never
deletes contents). -/
theorem claim_C7_nonempty_guard (root : FsPath) (fs : FS) (P : String) :
    (∀ t, safeRel root P = Except.ok t → existsRel fs t = true →
      isDirRel fs t = true → childrenOf fs t ≠ [] →
      removeEmptyDirectory root fs P =
        (fs, PyRes.errRes ("Directory is not empty: " ++ P))) ∧
    ((removeEmptyDirectory root fs P).1 ≠ fs →
      ∃ t, safeRel root P = Except.ok t ∧ childrenOf fs t = [] ∧
        (removeEmptyDirectory root fs P).1 = eraseFS fs t) := by
  constructor
  · intro t ht hex hdir hne
    unfold removeEmptyDirectory
    rw [ht]
    simp only [hex, hdir, Bool.not_true, Bool.false_eq_true, if_false,
      ite_false, List.isEmpty_eq_false.mpr hne, Bool.not_false, if_true,
      ite_true]
  · intro hmut
    cases hP : safeRel root P with
    | error e =>
      have hval : removeEmptyDirectory root fs P =
          (fs, PyRes.errRes ("Failed to remove directory: " ++ e)) := by
        unfold removeEmptyDirectory
        rw [hP]
      rw [hval] at hmut
      simp at hmut
    | ok t =>
      by_cases h1 : existsRel fs t = true
      · by_cases h2 : isDirRel fs t = true
        · by_cases h3 : (childrenOf fs t).isEmpty = true
          · have hval : removeEmptyDirectory root fs P =
                (eraseFS fs t,
                  PyRes.okMsg ("Removed empty directory " ++ P) none none) := by
              unfold removeEmptyDirectory
              rw [hP]
              simp only [h1, h2, h3, Bool.not_true, Bool.false_eq_true,
                if_false, ite_false]
            exact ⟨t, rfl, List.isEmpty_eq_true.mp h3, by rw [hval]⟩
          · have hval : removeEmptyDirectory root fs P =
                (fs, PyRes.errRes ("Directory is not empty: " ++ P)) := by
              unfold removeEmptyDirectory
              rw [hP]
              simp only [h1, h2, Bool.eq_false_iff.mpr h3, Bool.not_true,
                Bool.not_false, Bool.false_eq_true, if_false, ite_false,
                if_true, ite_true]
            rw [hval] at hmut
            simp at hmut
        · have hval : removeEmptyDirectory root fs P =
              (fs, PyRes.errRes ("Path is not a directory: " ++ P)) := by
            unfold removeEmptyDirectory
            rw [hP]
            simp only [h1, Bool.eq_false_iff.mpr h2, Bool.not_true,
              Bool.not_false, Bool.false_eq_true, if_false, ite_false,
              if_true, ite_true]
          rw [hval] at hmut
          simp at hmut
      · have hval : removeEmptyDirectory root fs P =
            (fs, PyRes.errRes ("Directory does not exist: " ++ P)) := by
          unfold removeEmptyDirectory
          rw [hP]
          simp only [Bool.eq_false_iff.mpr h1, Bool.not_false, if_true,
            ite_true]
        rw [hval] at hmut
        simp at hmut

/-- Witness for C7: removing `docs` containing one file fails and keeps
everything; removing an empty `docs` erases exactly that entry. -/
theorem claim_C7_nonempty_guard_witness :
    removeEmptyDirectory ["sb"]
      [(["docs"], Entry.dir), (["docs", "f.txt"], Entry.file 1)] "docs" =
      ([(["docs"], Entry.dir), (["docs", "f.txt"], Entry.file 1)],
        PyRes.errRes "Directory is not empty: docs") ∧
    (∃ t, safeRel ["sb"] "docs" = Except.ok t ∧
      childrenOf [(["docs"], Entry.dir)] t = [] ∧
      (removeEmptyDirectory ["sb"] [(["docs"], Entry.dir)] "docs").1 =
        eraseFS [(["docs"], Entry.dir)] t) := by
  constructor
  · exact (claim_C7_nonempty_guard ["sb"]
      [(["docs"], Entry.dir), (["docs", "f.txt"], Entry.file 1)] "docs").1
      ["docs"] (by rfl) (by decide) (by decide) (by decide)
  · exact (claim_C7_nonempty_guard ["sb"] [(["docs"], Entry.dir)] "docs").2
      (by decide)

/-- Claim C10 — `rename_file` is always strict: whenever the resolved
target path already exists, the call returns an error and the tree is
unchanged (neither the source entry nor the existing target entry is
modified); no alternate `" (N)"` name is ever generated. -/
theorem claim_C10_rename_strict (root : FsPath) (fs : FS)
    (oldName newName : String) (t : FsPath)
    (ht : safeRel root newName = Except.ok t)
    (hex : existsRel fs t = true) :
    (renameFile root fs oldName newName).1 = fs ∧
    ∃ m, (renameFile root fs oldName newName).2 = PyRes.errRes m := by
  cases hO : safeRel root oldName with
  | error e =>
    have hval : renameFile root fs oldName newName =
        (fs, PyRes.errRes ("Failed to rename: " ++ e)) := by
      unfold renameFile
      rw [hO, ht]
    rw [hval]
    exact ⟨rfl, ⟨"Failed to rename: " ++ e, rfl⟩⟩
  | ok o =>
    by_cases he : existsRel fs o = true
    · have hval : renameFile root fs oldName newName =
          (fs, PyRes.errRes ("Target name already exists: " ++ newName)) := by
        unfold renameFile
        rw [hO, ht]
        simp only [he, hex, Bool.not_true, Bool.false_eq_true, if_false,
          ite_false, if_true, ite_true]
      rw [hval]
      exact ⟨rfl, ⟨"Target name already exists: " ++ newName, rfl⟩⟩
    · have hval : renameFile root fs oldName newName =
          (fs, PyRes.errRes ("File does not exist: " ++ oldName)) := by
        unfold renameFile
        rw [hO, ht]
        simp only [Bool.eq_false_iff.mpr he, Bool.not_false, if_true,
          ite_true]
      rw [hval]
      exact ⟨rfl, ⟨"File does not exist: " ++ oldName, rfl⟩⟩

/-- Witness for C10: renaming `x.txt` onto the existing `y.txt` errors
and leaves both entries in place. -/
theorem claim_C10_rename_strict_witness :
    (renameFile ["sb"] [(["x.txt"], Entry.file 1), (["y.txt"], Entry.file 2)]
      "x.txt" "y.txt").1 =
      [(["x.txt"], Entry.file 1), (["y.txt"], Entry.file 2)] ∧
    ∃ m, (renameFile ["sb"]
      [(["x.txt"], Entry.file 1), (["y.txt"], Entry.file 2)]
      "x.txt" "y.txt").2 = PyRes.errRes m :=
  claim_C10_rename_strict ["sb"]
    [(["x.txt"], Entry.file 1), (["y.txt"], Entry.file 2)]
    "x.txt" "y.txt" ["y.txt"] (by rfl) (by decide)

theorem genLoop_finds (ex : FsPath → Bool) (parent : FsPath)
    (stem suffix : String) (t : Nat) :
    ∀ fuel counter k, counter + fuel = 10000 → counter ≤ k → k ≤ 9999 →
    ex (parent ++ [candidateName stem suffix k]) = false →
    (∀ j, counter ≤ j → j < k →
      ex (parent ++ [candidateName stem suffix j]) = true) →
    genLoop ex parent stem suffix t counter fuel =
      parent ++ [candidateName stem suffix k] := by
  intro fuel
  induction fuel with
  | zero =>
    intro counter k hsum hck hk _ _
    omega
  | succ fuel ih =>
    intro counter k hsum hck hk hfree hmin
    simp only [genLoop]
    by_cases hek : counter = k
    · subst hek
      rw [hfree]
      simp
    · have hlt : counter < k := lt_of_le_of_ne hck hek
      rw [hmin counter le_rfl hlt]
      simp only [Bool.not_true, Bool.false_eq_true, if_false, ite_false]
      rw [if_neg (by omega : ¬ counter + 1 > 9999)]
      exact ih (counter + 1) k (by omega) (by omega) hk hfree
        (fun j hj1 hj2 => hmin j (by omega) hj2)

theorem genLoop_fallback (ex : FsPath → Bool) (parent : FsPath)
    (stem suffix : String) (t : Nat) :
    ∀ fuel counter, 1 ≤ counter → counter ≤ 9999 →
    (∀ j, counter ≤ j → j ≤ 9999 →
      ex (parent ++ [candidateName stem suffix j]) = true) →
    genLoop ex parent stem suffix t counter fuel =
      parent ++ [fallbackName stem suffix t] := by
  intro fuel
  induction fuel with
  | zero =>
    intro counter h1 h9 hall
    simp only [genLoop]
    rw [hall counter le_rfl h9]
    simp
  | succ fuel ih =>
    intro counter h1 h9 hall
    simp only [genLoop]
    rw [hall counter le_rfl h9]
    simp only [Bool.not_true, Bool.false_eq_true, if_false, ite_false]
    by_cases h2 : counter + 1 > 9999
    · rw [if_pos h2]
    · rw [if_neg h2]
      exact ih (counter + 1) (by omega) (by omega)
        (fun j hj1 hj2 => hall j (by omega) hj2)

/-- Claim C6 (amended) — Rename determinism within the bound: when some
candidate index in `1..9999` is unused, the generator deterministically
returns the candidate `parent/"stem (k)suffix"` for the least such `k`,
and the returned path does not exist — so sequential conflicting moves
that stay within the bound land on pairwise distinct paths.  Past the
bound the generator returns the timestamp-suffixed fallback name without
checking it for existence, so in the fallback regime two moves with equal
timestamps can resolve to the same path (see the counterexample). -/
theorem claim_C6_amended (ex : FsPath → Bool) (p : FsPath) (now k : Nat)
    (h1 : 1 ≤ k) (h9 : k ≤ 9999)
    (hfree : ex (candidatePath p k) = false)
    (hmin : ∀ j, 1 ≤ j → j < k → ex (candidatePath p j) = true) :
    generateSafeFilename ex p now = candidatePath p k ∧
    ex (generateSafeFilename ex p now) = false := by
  have h := genLoop_finds ex p.dropLast (pathStem (nameOf p))
    (pathSuffix (nameOf p)) now 9999 1 k (by omega) h1 h9 hfree hmin
  refine ⟨h, ?_⟩
  unfold generateSafeFilename
  rw [h]
  exact hfree

/-- Witness for C6 (amended): with `a.txt` and `a (1).txt` taken, the
generator returns the least free candidate `a (2).txt`, which is unused. -/
theorem claim_C6_amended_witness :
    generateSafeFilename
        (fun q => decide (q = ["a.txt"] ∨ q = ["a (1).txt"])) ["a.txt"] 0 =
      candidatePath ["a.txt"] 2 ∧
    (fun q => decide (q = ["a.txt"] ∨ q = ["a (1).txt"]))
      (generateSafeFilename
        (fun q => decide (q = ["a.txt"] ∨ q = ["a (1).txt"])) ["a.txt"] 0) =
      false :=
  claim_C6_amended (fun q => decide (q = ["a.txt"] ∨ q = ["a (1).txt"]))
    ["a.txt"] 0 2 (by omega) (by omega) (by decide)
    (fun j hj1 hj2 => by
      have hj : j = 1 := by omega
      subst hj
      decide)

/-- Counterexample for C6 as stated: in the fallback regime (every
candidate name in use, modelled by the all-true existence oracle) the
generator returns `a_7.txt` at timestamp 7 without checking it for
existence, and after that move creates `a_7.txt` a second conflicting
move at the same timestamp resolves to the very same path — two
sequential conflicting moves do not produce distinct final paths. -/
theorem claim_C6_counterexample :
    generateSafeFilename (fun _ => true) ["a.txt"] 7 = ["a_7.txt"] ∧
    generateSafeFilename
      (fun q => (fun _ : FsPath => true) q || decide (q = ["a_7.txt"]))
      ["a.txt"] 7 = ["a_7.txt"] := by
  constructor
  · have h := genLoop_fallback (fun _ => true) ([] : FsPath)
      (pathStem "a.txt") (pathSuffix "a.txt") 7 9999 1 (by omega) (by omega)
      (fun j _ _ => rfl)
    show genLoop (fun _ => true) [] (pathStem "a.txt") (pathSuffix "a.txt")
      7 1 9999 = ["a_7.txt"]
    rw [h]
    rfl
  · have h := genLoop_fallback
      (fun q => (fun _ : FsPath => true) q || decide (q = ["a_7.txt"]))
      ([] : FsPath) (pathStem "a.txt") (pathSuffix "a.txt") 7 9999 1
      (by omega) (by omega) (fun j _ _ => rfl)
    show genLoop (fun q => (fun _ : FsPath => true) q || decide (q = ["a_7.txt"]))
      [] (pathStem "a.txt") (pathSuffix "a.txt") 7 1 9999 = ["a_7.txt"]
    rw [h]
    rfl

/-- Claim C3 (amended) — Dispatch without validation: the action
dispatcher never consults `SafetyValidator.validate_action`; its only gate
is membership in `action_map` — an action kind outside the registry
returns the unknown-action error with the tree untouched and no operation
invoked, while any registered kind is dispatched even when the validator
would reject it (see the counterexample). -/
theorem claim_C3_amended (root : FsPath) (now : Nat) (fs : FS) (a : String)
    (ps : Params) (h : a ∉ actionMapKeys) :
    executeAction root now fs a ps =
      (fs, PyRes.errRes ("Unknown action: " ++ a)) := by
  unfold executeAction
  rw [assocLookup_eq_none actionMap a h]

/-- Witness for C3 (amended): an unregistered action kind yields the
unknown-action error and leaves the tree unchanged. -/
theorem claim_C3_amended_witness :
    executeAction ["sb"] 0 [] "delete_everything" [] =
      ([], PyRes.errRes "Unknown action: delete_everything") :=
  claim_C3_amended ["sb"] 0 [] "delete_everything" [] (by decide)

/-- Counterexample for C3 as stated: `validate_action` rejects
`bulk_move_files` (it is not in the allowlist, for every dangerous-pattern
oracle the rejection already holds with the never-matching oracle), yet
the dispatcher executes it — the call mutates the tree by creating the
destination directory instead of returning an unauthorized-action error
without invoking any filesystem operation. -/
theorem claim_C3_counterexample :
    validateAction (fun _ => false) "bulk_move_files"
      [("file_patterns", PValue.strList []),
       ("destination_dir", PValue.str "newdir")] = false ∧
    (executeAction ["sb"] 0 [] "bulk_move_files"
      [("file_patterns", PValue.strList []),
       ("destination_dir", PValue.str "newdir")]).1 =
      [(["newdir"], Entry.dir)] ∧
    (executeAction ["sb"] 0 [] "bulk_move_files"
      [("file_patterns", PValue.strList []),
       ("destination_dir", PValue.str "newdir")]).1 ≠ [] := by
  refine ⟨by decide, by decide, ?_⟩
  decide

/-- Counterexample for C4 as stated: `get_move_preview` is dispatchable
through `action_map` but absent from the validator's `allowed_actions`
allowlist, so the two sets are not equal. -/
theorem claim_C4_counterexample :
    "get_move_preview" ∈ actionMapKeys ∧
    "get_move_preview" ∉ allowedActions := by
  decide

/-- Claim C4 (amended) — Allowlist is a strict subset of the registry:
`action_map` dispatches exactly the nine kinds the spec lists, but the
validator's `allowed_actions` holds only seven of them — every allowlisted
kind is dispatchable, while `get_move_preview` and `bulk_move_files` are
dispatchable yet not allowlisted, so the sets differ. -/
theorem claim_C4_amended :
    allowedActions = ["list_directory", "move_file", "move_directory",
      "rename_file", "create_directory", "remove_empty_directory",
      "get_file_info"] ∧
    actionMapKeys = ["list_directory", "move_file", "move_directory",
      "rename_file", "create_directory", "remove_empty_directory",
      "get_file_info", "get_move_preview", "bulk_move_files"] ∧
    allowedActions.all (fun a => actionMapKeys.contains a) = true ∧
    actionMapKeys.all (fun a => allowedActions.contains a) = false := by
  refine ⟨rfl, rfl, by decide, by decide⟩

theorem moveFile_okMsg_shape (root : FsPath) (fs : FS) (S D : String)
    (ar : Bool) (now : Nat) (m : String) (ren : Option Bool) (fp : Option String)
    (h : (moveFile root fs S D ar now).2 = PyRes.okMsg m ren fp) :
    ∃ d0, safeRel root D = Except.ok d0 ∧
      ((existsRel fs d0 = true ∧ ren = some true ∧
         ∃ q, q ≠ d0 ∧ fp = some (render q)) ∨
       (existsRel fs d0 = false ∧ ren = none ∧ fp = none)) := by
  cases hS : safeRel root S with
  | error e =>
    have hval : moveFile root fs S D ar now =
        (fs, PyRes.errRes ("Failed to move file: " ++ e)) := by
      unfold moveFile
      rw [hS]
      cases safeRel root D <;> rfl
    rw [hval] at h
    simp at h
  | ok s0 =>
    cases hD : safeRel root D with
    | error e =>
      have hval : moveFile root fs S D ar now =
          (fs, PyRes.errRes ("Failed to move file: " ++ e)) := by
        unfold moveFile
        rw [hS, hD]
      rw [hval] at h
      simp at h
    | ok d0 =>
      refine ⟨d0, rfl, ?_⟩
      by_cases hes : existsRel fs s0 = true
      · by_cases hdir : isDirRel fs s0 = true
        · have hval : moveFile root fs S D ar now =
              (fs, PyRes.errRes "Use move_directory for directories") := by
            unfold moveFile
            rw [hS, hD]
            simp only [hes, hdir, Bool.not_true, Bool.false_eq_true, if_false,
              ite_false, if_true, ite_true]
          rw [hval] at h
          simp at h
        · have hdirF := Bool.eq_false_iff.mpr hdir
          by_cases hexd : existsRel fs d0 = true
          · cases har : ar with
            | false =>
              subst har
              have hval : moveFile root fs S D false now =
                  (fs, PyRes.errRes ("Destination file already exists: " ++ D ++
                    ". File would be overwritten.")) := by
                unfold moveFile
                rw [hS, hD]
                simp only [hes, hdirF, hexd, Bool.not_true, Bool.not_false,
                  Bool.false_eq_true, if_false, ite_false, if_true, ite_true]
              rw [hval] at h
              simp at h
            | true =>
              subst har
              obtain ⟨nm, hgen, hlen⟩ := gen_shape (fun q => existsRel fs q) d0 now
              have hdne := concat_ne_self d0 nm hlen
              cases hmk : mkdirParents fs d0.dropLast with
              | error e2 =>
                have hval : moveFile root fs S D true now =
                    (fs, PyRes.errRes ("Failed to move file: " ++ e2)) := by
                  unfold moveFile
                  rw [hS, hD]
                  simp only [hes, hdirF, hexd, Bool.not_true, Bool.not_false,
                    Bool.false_eq_true, if_false, ite_false, if_true, ite_true]
                  rw [hgen, List.dropLast_concat, hmk]
                rw [hval] at h
                simp at h
              | ok fs1 =>
                have hval : moveFile root fs S D true now =
                    (movePrim fs1 s0 (d0.dropLast ++ [nm]),
                      PyRes.okMsg ("Moved " ++ S ++ " to " ++
                        render (d0.dropLast ++ [nm]) ++
                        " (renamed to avoid overwrite)") (some true)
                        (some (render (d0.dropLast ++ [nm])))) := by
                  unfold moveFile
                  rw [hS, hD]
                  simp only [hes, hdirF, hexd, Bool.not_true, Bool.not_false,
                    Bool.false_eq_true, if_false, ite_false, if_true, ite_true]
                  rw [hgen, List.dropLast_concat, hmk]
                  simp only [if_pos hdne]
                rw [hval] at h
                have h2 : PyRes.okMsg ("Moved " ++ S ++ " to " ++
                    render (d0.dropLast ++ [nm]) ++
                    " (renamed to avoid overwrite)") (some true)
                    (some (render (d0.dropLast ++ [nm]))) =
                    PyRes.okMsg m ren fp := h
                injection h2 with e1 e2 e3
                exact Or.inl ⟨hexd, e2.symm,
                  ⟨d0.dropLast ++ [nm], hdne, e3.symm⟩⟩
          · have hexdF := Bool.eq_false_iff.mpr hexd
            cases hmk : mkdirParents fs d0.dropLast with
            | error e2 =>
              have hval : moveFile root fs S D ar now =
                  (fs, PyRes.errRes ("Failed to move file: " ++ e2)) := by
                unfold moveFile
                rw [hS, hD]
                simp only [hes, hdirF, hexdF, Bool.not_true, Bool.not_false,
                  Bool.false_eq_true, if_false, ite_false, if_true, ite_true]
                rw [hmk]
              rw [hval] at h
              simp at h
            | ok fs1 =>
              have hval : moveFile root fs S D ar now =
                  (movePrim fs1 s0 d0,
                    PyRes.okMsg ("Moved " ++ S ++ " to " ++ D) none none) := by
                unfold moveFile
                rw [hS, hD]
                simp only [hes, hdirF, hexdF, Bool.not_true, Bool.not_false,
                  Bool.false_eq_true, if_false, ite_false, if_true, ite_true]
                rw [hmk]
                simp only [if_neg (by simp : ¬ d0 ≠ d0)]
              rw [hval] at h
              have h2 : PyRes.okMsg ("Moved " ++ S ++ " to " ++ D) none none =
                  PyRes.okMsg m ren fp := h
              injection h2 with e1 e2 e3
              exact Or.inr ⟨hexdF, e2.symm, e3.symm⟩
      · have hesF := Bool.eq_false_iff.mpr hes
        have hval : moveFile root fs S D ar now =
            (fs, PyRes.errRes ("Source does not exist: " ++ S)) := by
          unfold moveFile
          rw [hS, hD]
          simp only [hesF, Bool.not_false, if_true, ite_true]
        rw [hval] at h
        simp at h

theorem moveDirectory_okMsg_shape (root : FsPath) (fs : FS) (S D : String)
    (ar : Bool) (now : Nat) (m : String) (ren : Option Bool) (fp : Option String)
    (h : (moveDirectory root fs S D ar now).2 = PyRes.okMsg m ren fp) :
    ∃ d0, safeRel root D = Except.ok d0 ∧
      ((existsRel fs d0 = true ∧ ren = some true ∧
         ∃ q, q ≠ d0 ∧ fp = some (render q)) ∨
       (existsRel fs d0 = false ∧ ren = none ∧ fp = none)) := by
  cases hS : safeRel root S with
  | error e =>
    have hval : moveDirectory root fs S D ar now =
        (fs, PyRes.errRes ("Failed to move directory: " ++ e)) := by
      unfold moveDirectory
      rw [hS]
      cases safeRel root D <;> rfl
    rw [hval] at h
    simp at h
  | ok s0 =>
    cases hD : safeRel root D with
    | error e =>
      have hval : moveDirectory root fs S D ar now =
          (fs, PyRes.errRes ("Failed to move directory: " ++ e)) := by
        unfold moveDirectory
        rw [hS, hD]
      rw [hval] at h
      simp at h
    | ok d0 =>
      refine ⟨d0, rfl, ?_⟩
      by_cases hes : existsRel fs s0 = true
      · by_cases hdir : isDirRel fs s0 = true
        · by_cases hexd : existsRel fs d0 = true
          · cases har : ar with
            | false =>
              subst har
              have hval : moveDirectory root fs S D false now =
                  (fs, PyRes.errRes ("Destination directory already exists: " ++
                    D ++ ". Directory would be merged or overwritten.")) := by
                unfold moveDirectory
                rw [hS, hD]
                simp only [hes, hdir, hexd, Bool.not_true, Bool.not_false,
                  Bool.false_eq_true, if_false, ite_false, if_true, ite_true]
              rw [hval] at h
              simp at h
            | true =>
              subst har
              obtain ⟨nm, hgen, hlen⟩ := gen_shape (fun q => existsRel fs q) d0 now
              have hdne := concat_ne_self d0 nm hlen
              cases hmk : mkdirParents fs d0.dropLast with
              | error e2 =>
                have hval : moveDirectory root fs S D true now =
                    (fs, PyRes.errRes ("Failed to move directory: " ++ e2)) := by
                  unfold moveDirectory
                  rw [hS, hD]
                  simp only [hes, hdir, hexd, Bool.not_true, Bool.not_false,
                    Bool.false_eq_true, if_false, ite_false, if_true, ite_true]
                  rw [hgen, List.dropLast_concat, hmk]
                rw [hval] at h
                simp at h
              | ok fs1 =>
                have hval : moveDirectory root fs S D true now =
                    (movePrim fs1 s0 (d0.dropLast ++ [nm]),
                      PyRes.okMsg ("Moved directory " ++ S ++ " to " ++
                        render (d0.dropLast ++ [nm]) ++
                        " (renamed to avoid conflicts)") (some true)
                        (some (render (d0.dropLast ++ [nm])))) := by
                  unfold moveDirectory
                  rw [hS, hD]
                  simp only [hes, hdir, hexd, Bool.not_true, Bool.not_false,
                    Bool.false_eq_true, if_false, ite_false, if_true, ite_true]
                  rw [hgen, List.dropLast_concat, hmk]
                  simp only [if_pos hdne]
                rw [hval] at h
                have h2 : PyRes.okMsg ("Moved directory " ++ S ++ " to " ++
                    render (d0.dropLast ++ [nm]) ++
                    " (renamed to avoid conflicts)") (some true)
                    (some (render (d0.dropLast ++ [nm]))) =
                    PyRes.okMsg m ren fp := h
                injection h2 with e1 e2 e3
                exact Or.inl ⟨hexd, e2.symm,
                  ⟨d0.dropLast ++ [nm], hdne, e3.symm⟩⟩
          · have hexdF := Bool.eq_false_iff.mpr hexd
            cases hmk : mkdirParents fs d0.dropLast with
            | error e2 =>
              have hval : moveDirectory root fs S D ar now =
                  (fs, PyRes.errRes ("Failed to move directory: " ++ e2)) := by
                unfold moveDirectory
                rw [hS, hD]
                simp only [hes, hdir, hexdF, Bool.not_true, Bool.not_false,
                  Bool.false_eq_true, if_false, ite_false, if_true, ite_true]
                rw [hmk]
              rw [hval] at h
              simp at h
            | ok fs1 =>
              have hval : moveDirectory root fs S D ar now =
                  (movePrim fs1 s0 d0,
                    PyRes.okMsg ("Moved directory " ++ S ++ " to " ++ D)
                      none none) := by
                unfold moveDirectory
                rw [hS, hD]
                simp only [hes, hdir, hexdF, Bool.not_true, Bool.not_false,
                  Bool.false_eq_true, if_false, ite_false, if_true, ite_true]
                rw [hmk]
                simp only [if_neg (by simp : ¬ d0 ≠ d0)]
              rw [hval] at h
              have h2 : PyRes.okMsg ("Moved directory " ++ S ++ " to " ++ D)
                  none none = PyRes.okMsg m ren fp := h
              injection h2 with e1 e2 e3
              exact Or.inr ⟨hexdF, e2.symm, e3.symm⟩
        · have hdirF := Bool.eq_false_iff.mpr hdir
          have hval : moveDirectory root fs S D ar now =
              (fs, PyRes.errRes "Use move_file for files") := by
            unfold moveDirectory
            rw [hS, hD]
            simp only [hes, hdirF, Bool.not_true, Bool.not_false,
              Bool.false_eq_true, if_false, ite_false, if_true, ite_true]
          rw [hval] at h
          simp at h
      · have hesF := Bool.eq_false_iff.mpr hes
        have hval : moveDirectory root fs S D ar now =
            (fs, PyRes.errRes ("Source does not exist: " ++ S)) := by
          unfold moveDirectory
          rw [hS, hD]
          simp only [hesF, Bool.not_false, if_true, ite_true]
        rw [hval] at h
        simp at h

/-- Claim C9 (amended) — MoveOutcome reporting: every successful
`move_file` or `move_directory` resolves its destination; when the
destination existed (auto-rename), the result carries `renamed = True` and
a `final_path` that is a Root-relative rendering of a path different from
the intended destination; when there was no conflict, the result carries
neither a `renamed` key nor a `final_path` key (rather than an explicit
`renamed = False` with a reported final path, as the claim stated). -/
theorem claim_C9_amended (root : FsPath) (fs : FS) (S D : String)
    (ar : Bool) (now : Nat) :
    (∀ m ren fp, (moveFile root fs S D ar now).2 = PyRes.okMsg m ren fp →
      ∃ d0, safeRel root D = Except.ok d0 ∧
        ((existsRel fs d0 = true ∧ ren = some true ∧
           ∃ q, q ≠ d0 ∧ fp = some (render q)) ∨
         (existsRel fs d0 = false ∧ ren = none ∧ fp = none))) ∧
    (∀ m ren fp, (moveDirectory root fs S D ar now).2 = PyRes.okMsg m ren fp →
      ∃ d0, safeRel root D = Except.ok d0 ∧
        ((existsRel fs d0 = true ∧ ren = some true ∧
           ∃ q, q ≠ d0 ∧ fp = some (render q)) ∨
         (existsRel fs d0 = false ∧ ren = none ∧ fp = none))) :=
  ⟨fun m ren fp h => moveFile_okMsg_shape root fs S D ar now m ren fp h,
   fun m ren fp h => moveDirectory_okMsg_shape root fs S D ar now m ren fp h⟩

/-- Witness for C9 (amended): a conflicting file move reports
`renamed = True` with final path `b (1).txt`, and a conflicting directory
move reports `renamed = True` with final path `d2 (1)`. -/
theorem claim_C9_amended_witness :
    (∃ d0, safeRel ["sb"] "b.txt" = Except.ok d0 ∧
      ((existsRel [(["b.txt"], Entry.file 1), (["a.txt"], Entry.file 9)] d0 = true ∧
        (some true : Option Bool) = some true ∧
        ∃ q, q ≠ d0 ∧ (some "b (1).txt" : Option String) = some (render q)) ∨
       (existsRel [(["b.txt"], Entry.file 1), (["a.txt"], Entry.file 9)] d0 = false ∧
        (some true : Option Bool) = none ∧
        (some "b (1).txt" : Option String) = none))) ∧
    (∃ d0, safeRel ["sb"] "d2" = Except.ok d0 ∧
      ((existsRel [(["d1"], Entry.dir), (["d2"], Entry.dir)] d0 = true ∧
        (some true : Option Bool) = some true ∧
        ∃ q, q ≠ d0 ∧ (some "d2 (1)" : Option String) = some (render q)) ∨
       (existsRel [(["d1"], Entry.dir), (["d2"], Entry.dir)] d0 = false ∧
        (some true : Option Bool) = none ∧
        (some "d2 (1)" : Option String) = none))) :=
  ⟨(claim_C9_amended ["sb"] [(["b.txt"], Entry.file 1), (["a.txt"], Entry.file 9)]
      "a.txt" "b.txt" true 0).1
      "Moved a.txt to b (1).txt (renamed to avoid overwrite)"
      (some true) (some "b (1).txt") (by rfl),
   (claim_C9_amended ["sb"] [(["d1"], Entry.dir), (["d2"], Entry.dir)]
      "d1" "d2" true 0).2
      "Moved directory d1 to d2 (1) (renamed to avoid conflicts)"
      (some true) (some "d2 (1)") (by rfl)⟩

/-- Counterexample for C9 as stated: a successful non-conflict move
returns a result with no `renamed` key and no `final_path` key at all
(both absent, modelled as `none`), although the claim requires every
successful move to carry a renamed flag equal to false and a final path
reported relative to Root in that case. -/
theorem claim_C9_counterexample :
    (moveFile ["sb"] [(["a.txt"], Entry.file 3)] "a.txt" "b.txt" true 0).2 =
      PyRes.okMsg "Moved a.txt to b.txt" none none ∧
    (moveFile ["sb"] [(["a.txt"], Entry.file 3)] "a.txt" "b.txt" true 0).2 ≠
      PyRes.okMsg "Moved a.txt to b.txt" (some false) (some "b.txt") := by
  refine ⟨rfl, ?_⟩
  decide

theorem bucketOf_sum (s d : String) (r : PyRes) :
    (bucketOf s d r).1.length + (bucketOf s d r).2.1.length +
      (bucketOf s d r).2.2.length = 1 := by
  unfold bucketOf
  by_cases h1 : resSuccess r = true
  · rw [if_pos h1]
    by_cases h2 : resRenamed r = true
    · rw [if_pos h2]
      rfl
    · rw [if_neg h2]
      rfl
  · rw [if_neg h1]
    rfl

theorem processFiles_count (root dstDir : FsPath) (ar : Bool) (now : Nat) :
    ∀ files : List FsPath, ∀ fs : FS,
    (processFiles root dstDir ar now fs files).2.1.length +
      (processFiles root dstDir ar now fs files).2.2.1.length +
      (processFiles root dstDir ar now fs files).2.2.2.length =
    specMatchedFiles root dstDir ar now fs files := by
  intro files
  induction files with
  | nil => intro fs; rfl
  | cons f rest ih =>
    intro fs
    by_cases hf : isFileRel fs f = true
    · have hb := bucketOf_sum (render f)
        (renderAbs (root ++ dstDir ++ [nameOf f]))
        (moveFile root fs (render f)
          (renderAbs (root ++ dstDir ++ [nameOf f])) ar now).2
      have hr := ih (moveFile root fs (render f)
        (renderAbs (root ++ dstDir ++ [nameOf f])) ar now).1
      simp only [processFiles, specMatchedFiles, hf, if_true, ite_true,
        accAppend, List.length_append]
      omega
    · simp only [processFiles, specMatchedFiles, Bool.eq_false_iff.mpr hf,
        Bool.false_eq_true, if_false, ite_false]
      exact ih fs

theorem processFilePatterns_count (root dstDir : FsPath) (ar : Bool) (now : Nat) :
    ∀ pats : List String, ∀ fs : FS,
    (processFilePatterns root dstDir ar now fs pats).2.1.length +
      (processFilePatterns root dstDir ar now fs pats).2.2.1.length +
      (processFilePatterns root dstDir ar now fs pats).2.2.2.length =
    specMatchedTotal root dstDir ar now fs pats := by
  intro pats
  induction pats with
  | nil => intro fs; rfl
  | cons pat rest ih =>
    intro fs
    have h1 := processFiles_count root dstDir ar now (globFS fs pat) fs
    have h2 := ih (processFiles root dstDir ar now fs (globFS fs pat)).1
    simp only [processFilePatterns, specMatchedTotal, accAppend,
      List.length_append]
    omega

/-- Claim C8 — Bulk accounting and isolation: whenever `bulk_move_files`
returns its aggregate result, every entry the inner loop sees as a file
(matched directories are skipped) lands in exactly one of the three
buckets, so `len(moved) + len(renamed) + len(errors)` equals the total
number of files matched across all patterns (each pattern expanded
against the tree as the loop reaches it); a failing move contributes one
`errors` record and never aborts the processing of the remaining matched
files. -/
theorem claim_C8_bulk_accounting (root : FsPath) (fs : FS)
    (filePatterns : List String) (destinationDir : String) (ar : Bool)
    (now : Nat) (mv : List MovedRec) (rn : List RenamedRec) (er : List ErrRec)
    (sm : String)
    (h : (bulkMoveFiles root fs filePatterns destinationDir ar now).2 =
      PyRes.bulkRes mv rn er sm) :
    mv.length + rn.length + er.length =
      specBulkTotalMatched root fs filePatterns destinationDir ar now := by
  cases hsr : safeRel root destinationDir with
  | error e =>
    have hval : bulkMoveFiles root fs filePatterns destinationDir ar now =
        (fs, PyRes.errRes ("Bulk move failed: " ++ e)) := by
      unfold bulkMoveFiles
      rw [hsr]
    rw [hval] at h
    simp at h
  | ok dstDir =>
    cases hmk : mkdirParents fs dstDir with
    | error e =>
      have hval : bulkMoveFiles root fs filePatterns destinationDir ar now =
          (fs, PyRes.errRes ("Bulk move failed: " ++ e)) := by
        unfold bulkMoveFiles
        rw [hsr]
        simp only [hmk]
      rw [hval] at h
      simp at h
    | ok fs0 =>
      have hval : bulkMoveFiles root fs filePatterns destinationDir ar now =
          ((processFilePatterns root dstDir ar now fs0 filePatterns).1,
            PyRes.bulkRes
              (processFilePatterns root dstDir ar now fs0 filePatterns).2.1
              (processFilePatterns root dstDir ar now fs0 filePatterns).2.2.1
              (processFilePatterns root dstDir ar now fs0 filePatterns).2.2.2
              ("Moved " ++
                toString (processFilePatterns root dstDir ar now fs0
                  filePatterns).2.1.length ++
                " files, renamed " ++
                toString (processFilePatterns root dstDir ar now fs0
                  filePatterns).2.2.1.length ++
                " to avoid conflicts, " ++
                toString (processFilePatterns root dstDir ar now fs0
                  filePatterns).2.2.2.length ++ " errors")) := by
        unfold bulkMoveFiles
        rw [hsr]
        simp only [hmk]
      rw [hval] at h
      have h2 : PyRes.bulkRes
          (processFilePatterns root dstDir ar now fs0 filePatterns).2.1
          (processFilePatterns root dstDir ar now fs0 filePatterns).2.2.1
          (processFilePatterns root dstDir ar now fs0 filePatterns).2.2.2
          ("Moved " ++
            toString (processFilePatterns root dstDir ar now fs0
              filePatterns).2.1.length ++
            " files, renamed " ++
            toString (processFilePatterns root dstDir ar now fs0
              filePatterns).2.2.1.length ++
            " to avoid conflicts, " ++
            toString (processFilePatterns root dstDir ar now fs0
              filePatterns).2.2.2.length ++ " errors") =
          PyRes.bulkRes mv rn er sm := h
      injection h2 with e1 e2 e3 e4
      have hspec : specBulkTotalMatched root fs filePatterns destinationDir
          ar now = specMatchedTotal root dstDir ar now fs0 filePatterns := by
        unfold specBulkTotalMatched
        rw [hsr]
        simp only [hmk]
      rw [hspec, ← e1, ← e2, ← e3]
      exact processFilePatterns_count root dstDir ar now filePatterns fs0

/-- Witness for C8: a bulk move of the single `*.txt` match into `docs`
yields one moved record, no renames, no errors, matching the one matched
file. -/
theorem claim_C8_bulk_accounting_witness :
    ([{ source := "a.txt", destination := "/sb/docs/a.txt" }] :
        List MovedRec).length +
      ([] : List RenamedRec).length + ([] : List ErrRec).length =
      specBulkTotalMatched ["sb"]
        [(["a.txt"], Entry.file 1), (["docs"], Entry.dir)]
        ["*.txt"] "docs" true 0 :=
  claim_C8_bulk_accounting ["sb"]
    [(["a.txt"], Entry.file 1), (["docs"], Entry.dir)] ["*.txt"] "docs" true 0
    [{ source := "a.txt", destination := "/sb/docs/a.txt" }] [] []
    "Moved 1 files, renamed 0 to avoid conflicts, 0 errors" (by rfl)

end LLMFileOrg
